import Mathlib

/-!
Verification of the link-reconciliation engine of the `eveng` Terraform
provider (`internal/provider/node_link_resource.go`).

Modelling conventions:
* Terraform framework values (`types.Int64`, `types.String`, ...) are
  tri-state: null, unknown, or a concrete value.  `ValueInt64`/`ValueString`
  return the zero value (`0` / `""`) on null or unknown, exactly as in the
  terraform-plugin-framework.
* The `evengsdk.Client` is external to this repository; it is modelled as an
  oracle: a record of pure response functions (spec section 6 treats it as a
  set of synchronous operations with success/error results).  `CreateNetwork`
  receives a pointer and, on success, writes the remote-assigned id into the
  passed struct; the oracle models this by returning the assigned id.
* Every helper of the resource returns, besides its Go results, the list of
  client calls it issued, in order.  Reads (`GetNode`, `GetNodeInterface`,
  `GetNetwork`, `GetTopology`) and mutations (`UpdateNodeInterfaceName`,
  `CreateNetwork`, `UpdateNetwork`, `DeleteNetwork`, style update) are
  distinguished by `Call.isMutation`.
* Go `int` / `int64` are modelled as `Int` (the conversions
  `int(x.ValueInt64())` are the identity in this model; overflow clamping of
  64-bit integers is not modelled).  Go `float32` values are modelled as `Rat`.
* Go errors are opaque values; each `fmt.Errorf` in the resource becomes a
  constructor of `GoErr` carrying the format arguments, and errors coming from
  the client are wrapped by `GoErr.api`.
-/

namespace Eveng

/-- Model of `terraform-plugin-framework` `types.Int64`: null, unknown or a
known value. -/
inductive TfInt64 where
  | null
  | unknown
  | value (v : Int)
  deriving DecidableEq, Repr

/-- `ValueInt64()`: the known value, or `0` when null or unknown. -/
def TfInt64.valueInt64 : TfInt64 → Int
  | .value v => v
  | _ => 0

/-- `IsNull()`. -/
def TfInt64.isNull : TfInt64 → Bool
  | .null => true
  | _ => false

/-- `IsUnknown()`. -/
def TfInt64.isUnknown : TfInt64 → Bool
  | .unknown => true
  | _ => false

/-- Model of `types.String`. -/
inductive TfString where
  | null
  | unknown
  | value (v : String)
  deriving DecidableEq, Repr

/-- `ValueString()`: the known value, or `""` when null or unknown. -/
def TfString.valueString : TfString → String
  | .value v => v
  | _ => ""

/-- `IsNull()`. -/
def TfString.isNull : TfString → Bool
  | .null => true
  | _ => false

/-- Model of `types.Int32`. -/
inductive TfInt32 where
  | null
  | unknown
  | value (v : Int)
  deriving DecidableEq, Repr

/-- Model of `types.Float32` (float values modelled as rationals). -/
inductive TfFloat32 where
  | null
  | unknown
  | value (v : Rat)
  deriving DecidableEq, Repr

/-- The only field of an `evengsdk` node interface the resource reads:
`NetworkId` (`0` = unbound). -/
structure NodeIface where
  networkId : Int
  deriving DecidableEq, Repr

/-- `evengsdk.Network`, the fields populated by `createOrUpdateNetwork`. -/
structure Network where
  id : Int
  left : Int
  top : Int
  name : String
  ntype : String
  visibility : String
  icon : String
  deriving DecidableEq, Repr

/-- `evengsdk.Style` as built by `MakeNodeStyle` (the `json.Number` fields are
produced from `int32` values, modelled as `Int`). -/
structure SdkStyle where
  style : String
  color : String
  srcpos : Rat
  dstpos : Rat
  linkstyle : String
  width : Int
  label : String
  labelpos : Rat
  stub : Int
  curviness : Int
  beziercurviness : Int
  round : Int
  midpoint : Rat
  deriving DecidableEq, Repr

/-- One entry of the topology listing (`map[string]interface{}` on the wire),
restricted to the keys `GetTopologyForTargetNode` accesses.  Keys read with a
checked type assertion (`v, ok := m[k].(string)`) are `Option String` (`none`
models a missing key or a non-string value).  The numeric keys are read with
an *unchecked* assertion `m[k].(string)`, which panics when the key is missing
or not a string; the model therefore assumes those keys are present as
strings (a run that would panic is outside the model). -/
structure TopoEntry where
  source : Option String
  sourceLabel : Option String
  style : Option String
  color : Option String
  linkstyle : Option String
  label : Option String
  srcpos : String
  dstpos : String
  width : String
  labelpos : String
  stub : String
  curviness : String
  beziercurviness : String
  round : String
  midpoint : String
  deriving DecidableEq, Repr

/-- The `evengsdk.Client` oracle: one pure response function per consumed
operation (spec section 6).  `getNodeInterface` returns the interface index and
the interface; `createNetwork` returns the remote-assigned id that the SDK
writes back into the passed struct on success. -/
structure Client where
  getNodeInterface : String → Int → String → Except String (Int × NodeIface)
  getNode : String → Int → Except String Unit
  getNetwork : String → Int → Except String Network
  updateNodeInterfaceName : String → Int → String → Int → Except String Unit
  createNetwork : String → Network → Except String Int
  updateNetwork : String → Network → Except String Unit
  deleteNetwork : String → Int → Except String Unit
  getTopology : String → Except String (List TopoEntry)
  updateNodeInterfaceStyle : String → Int → String → SdkStyle → Except String Unit
  isPro : Bool

/-- A remote call issued by the resource, in issue order. -/
inductive Call where
  | getNodeInterface (lab : String) (node : Int) (port : String)
  | getNode (lab : String) (node : Int)
  | getNetwork (lab : String) (net : Int)
  | getTopology (lab : String)
  | updateInterface (lab : String) (node : Int) (port : String) (net : Int)
  | createNetwork (lab : String) (net : Network)
  | updateNetwork (lab : String) (net : Network)
  | deleteNetwork (lab : String) (net : Int)
  | updateInterfaceStyle (lab : String) (node : Int) (port : String) (style : SdkStyle)
  deriving DecidableEq, Repr

/-- Whether a call mutates remote state (everything except the GET
operations). -/
def Call.isMutation : Call → Bool
  | .updateInterface _ _ _ _ => true
  | .createNetwork _ _ => true
  | .updateNetwork _ _ => true
  | .deleteNetwork _ _ => true
  | .updateInterfaceStyle _ _ _ _ => true
  | _ => false

/-- Whether a call is a `CreateNetwork`. -/
def Call.isCreateNetwork : Call → Bool
  | .createNetwork _ _ => true
  | _ => false

/-- Whether a call is a `DeleteNetwork`. -/
def Call.isDeleteNetwork : Call → Bool
  | .deleteNetwork _ _ => true
  | _ => false

/-- Go `error` values produced by the resource: either an error propagated
from the client (`api`) or one of the resource's own `fmt.Errorf` calls,
carrying the format arguments. -/
inductive GoErr where
  | api (msg : String)
  | sourceNodeNotFound (id : Int)
  | sourcePortNotConnected (port : String) (net : Int)
  | targetPortNotConnected (port : String) (net : Int)
  deriving DecidableEq, Repr

/-- `err.Error()`: the rendered message of a `GoErr`, following the Go format
strings. -/
def GoErr.message : GoErr → String
  | .api m => m
  | .sourceNodeNotFound i => "source node " ++ toString i ++ " not found"
  | .sourcePortNotConnected p n =>
      "source port " ++ p ++ " is not connected to network " ++ toString n
  | .targetPortNotConnected p n =>
      "target port " ++ p ++ " is not connected to network " ++ toString n

/-- `StyleResourceModel`. -/
structure StyleResourceModel where
  style : TfString
  color : TfString
  srcPos : TfFloat32
  dstPos : TfFloat32
  linkStyle : TfString
  width : TfInt32
  label : TfString
  labelPos : TfFloat32
  stub : TfInt32
  curviness : TfInt32
  bezierCurviness : TfInt32
  round : TfInt32
  midpoint : TfFloat32
  deriving DecidableEq, Repr

/-- Go zero value `StyleResourceModel{}`: every framework value is null. -/
def emptyStyle : StyleResourceModel :=
  { style := .null, color := .null, srcPos := .null, dstPos := .null,
    linkStyle := .null, width := .null, label := .null, labelPos := .null,
    stub := .null, curviness := .null, bezierCurviness := .null,
    round := .null, midpoint := .null }

/-- `NodeLinkResourceModel` (`Style` is a nullable pointer, hence `Option`). -/
structure NodeLinkResourceModel where
  labPath : TfString
  networkId : TfInt64
  sourceNodeId : TfInt64
  sourcePort : TfString
  targetNodeId : TfInt64
  targetPort : TfString
  style : Option StyleResourceModel
  deriving DecidableEq, Repr

/-- Go zero value `NodeLinkResourceModel{}` (used as the empty previous state
on create): all framework values null, style pointer nil. -/
def emptyModel : NodeLinkResourceModel :=
  { labPath := .null, networkId := .null, sourceNodeId := .null,
    sourcePort := .null, targetNodeId := .null, targetPort := .null,
    style := none }

/-- `ensureInterfaceDeleted`: fetch the interface; if the fetch fails,
propagate the error (no mutation).  Unbind the interface (bind to network `0`)
only when its observed `NetworkId` equals the expected `networkId`. -/
def ensureInterfaceDeleted (c : Client) (labPath : String) (nodeId : Int)
    (port : String) (networkId : Int) : Option GoErr × List Call :=
  match c.getNodeInterface labPath nodeId port with
  | .error m => (some (.api m), [.getNodeInterface labPath nodeId port])
  | .ok (_, inter) =>
      if inter.networkId == networkId then
        match c.updateNodeInterfaceName labPath nodeId port 0 with
        | .error m =>
            (some (.api m),
             [.getNodeInterface labPath nodeId port,
              .updateInterface labPath nodeId port 0])
        | .ok _ =>
            (none,
             [.getNodeInterface labPath nodeId port,
              .updateInterface labPath nodeId port 0])
      else (none, [.getNodeInterface labPath nodeId port])

/-- `createOrUpdateNetwork`: probe `GetNetwork(labPath, networkId)`.  If it
fails, create a fresh network (id reset to `0`; on success the SDK assigns the
new id into the struct, modelled by the oracle's returned id).  Otherwise
update the network in place under the probed id.  The network template always
carries `Visibility: "1"`. -/
def createOrUpdateNetwork (c : Client) (labPath : String) (networkId : Int)
    (netName : String) : (Network × Option GoErr) × List Call :=
  let network : Network :=
    { id := networkId, left := 0, top := 0, name := netName,
      ntype := "bridge", visibility := "1", icon := "lan.png" }
  match c.getNetwork labPath networkId with
  | .error _ =>
      let network := { network with id := 0 }
      match c.createNetwork labPath network with
      | .error m =>
          ((network, some (.api m)),
           [.getNetwork labPath networkId, .createNetwork labPath network])
      | .ok assignedId =>
          (({ network with id := assignedId }, none),
           [.getNetwork labPath networkId, .createNetwork labPath network])
  | .ok _ =>
      match c.updateNetwork labPath network with
      | .error m =>
          ((network, some (.api m)),
           [.getNetwork labPath networkId, .updateNetwork labPath network])
      | .ok _ =>
          ((network, none),
           [.getNetwork labPath networkId, .updateNetwork labPath network])

/-- `MakeNodeLinkNet`: when the source endpoint changed relative to persisted
state (and a previous source node exists), conditionally unbind the old
interface; then bind the declared source interface to the declared network id,
which is returned. -/
def MakeNodeLinkNet (c : Client) (plan state : NodeLinkResourceModel) :
    (Int × Option GoErr) × List Call :=
  let (ensRes, ensTrace) :=
    if ((plan.sourceNodeId.valueInt64 != state.sourceNodeId.valueInt64) ||
        plan.sourcePort.valueString != state.sourcePort.valueString) &&
        state.sourceNodeId.valueInt64 != 0 then
      ensureInterfaceDeleted c plan.labPath.valueString
        state.sourceNodeId.valueInt64 state.sourcePort.valueString
        state.networkId.valueInt64
    else (none, [])
  match ensRes with
  | some e => ((plan.networkId.valueInt64, some e), ensTrace)
  | none =>
      let callBind :=
        Call.updateInterface plan.labPath.valueString
          plan.sourceNodeId.valueInt64 plan.sourcePort.valueString
          plan.networkId.valueInt64
      match c.updateNodeInterfaceName plan.labPath.valueString
          plan.sourceNodeId.valueInt64 plan.sourcePort.valueString
          plan.networkId.valueInt64 with
      | .error m =>
          ((plan.networkId.valueInt64, some (.api m)), ensTrace ++ [callBind])
      | .ok _ =>
          ((plan.networkId.valueInt64, none), ensTrace ++ [callBind])

/-- `MakeNodeLinkNode`: conditionally unbind changed endpoints, look up both
interfaces for their indices, create-or-update the implicit network under the
synthetic name `src_srcIdx_tgt_tgtIdx`, bind source then target to it, then
set its visibility to `"0"` and push that update. -/
def MakeNodeLinkNode (c : Client) (plan state : NodeLinkResourceModel) :
    (Int × Option GoErr) × List Call :=
  let lab := plan.labPath.valueString
  let (ensSrc, trSrc) :=
    if ((plan.sourceNodeId.valueInt64 != state.sourceNodeId.valueInt64) ||
        plan.sourcePort.valueString != state.sourcePort.valueString) &&
        state.sourceNodeId.valueInt64 != 0 then
      ensureInterfaceDeleted c lab state.sourceNodeId.valueInt64
        state.sourcePort.valueString state.networkId.valueInt64
    else (none, [])
  match ensSrc with
  | some e => ((state.networkId.valueInt64, some e), trSrc)
  | none =>
    let (ensTgt, trTgt) :=
      if ((plan.targetNodeId.valueInt64 != state.targetNodeId.valueInt64) ||
          plan.targetPort.valueString != state.targetPort.valueString) &&
          state.targetNodeId.valueInt64 != 0 then
        ensureInterfaceDeleted c lab state.targetNodeId.valueInt64
          state.targetPort.valueString state.networkId.valueInt64
      else (none, [])
    match ensTgt with
    | some e => ((state.networkId.valueInt64, some e), trSrc ++ trTgt)
    | none =>
      let tr0 := trSrc ++ trTgt
      match c.getNodeInterface lab plan.sourceNodeId.valueInt64
          plan.sourcePort.valueString with
      | .error m =>
          ((state.networkId.valueInt64, some (.api m)),
           tr0 ++ [.getNodeInterface lab plan.sourceNodeId.valueInt64
                     plan.sourcePort.valueString])
      | .ok (sourceIndex, _) =>
        let tr1 := tr0 ++ [Call.getNodeInterface lab
          plan.sourceNodeId.valueInt64 plan.sourcePort.valueString]
        match c.getNodeInterface lab plan.targetNodeId.valueInt64
            plan.targetPort.valueString with
        | .error m =>
            ((state.networkId.valueInt64, some (.api m)),
             tr1 ++ [.getNodeInterface lab plan.targetNodeId.valueInt64
                       plan.targetPort.valueString])
        | .ok (targetIndex, _) =>
          let tr2 := tr1 ++ [Call.getNodeInterface lab
            plan.targetNodeId.valueInt64 plan.targetPort.valueString]
          let synthName :=
            toString plan.sourceNodeId.valueInt64 ++ "_" ++
            toString sourceIndex ++ "_" ++
            toString plan.targetNodeId.valueInt64 ++ "_" ++
            toString targetIndex
          let ((network, netErr), trNet) :=
            createOrUpdateNetwork c lab state.networkId.valueInt64 synthName
          match netErr with
          | some e => ((network.id, some e), tr2 ++ trNet)
          | none =>
            let tr3 := tr2 ++ trNet
            match c.updateNodeInterfaceName lab plan.sourceNodeId.valueInt64
                plan.sourcePort.valueString network.id with
            | .error m =>
                ((network.id, some (.api m)),
                 tr3 ++ [.updateInterface lab plan.sourceNodeId.valueInt64
                           plan.sourcePort.valueString network.id])
            | .ok _ =>
              let tr4 := tr3 ++ [Call.updateInterface lab
                plan.sourceNodeId.valueInt64 plan.sourcePort.valueString
                network.id]
              match c.updateNodeInterfaceName lab plan.targetNodeId.valueInt64
                  plan.targetPort.valueString network.id with
              | .error m =>
                  ((network.id, some (.api m)),
                   tr4 ++ [.updateInterface lab plan.targetNodeId.valueInt64
                             plan.targetPort.valueString network.id])
              | .ok _ =>
                let tr5 := tr4 ++ [Call.updateInterface lab
                  plan.targetNodeId.valueInt64 plan.targetPort.valueString
                  network.id]
                let network := { network with visibility := "0" }
                match c.updateNetwork lab network with
                | .error m =>
                    ((network.id, some (.api m)),
                     tr5 ++ [.updateNetwork lab network])
                | .ok _ =>
                    ((network.id, none), tr5 ++ [.updateNetwork lab network])

/-- `NewNodeLinkModelNet` — the read path for the node-to-network shape.
Returns the refreshed model, a Go error, and the `recreate` flag. -/
def NewNodeLinkModelNet (c : Client) (state : NodeLinkResourceModel) :
    (NodeLinkResourceModel × Option GoErr × Bool) × List Call :=
  let lab := state.labPath.valueString
  let model := state
  match c.getNetwork lab state.networkId.valueInt64 with
  | .error m =>
      ((model, some (.api m), true), [.getNetwork lab state.networkId.valueInt64])
  | .ok _ =>
    let tr1 := [Call.getNetwork lab state.networkId.valueInt64]
    match c.getNode lab state.sourceNodeId.valueInt64 with
    | .error _ =>
        (({ model with sourceNodeId := .value 0, sourcePort := .value "" },
          some (.sourceNodeNotFound state.sourceNodeId.valueInt64), false),
         tr1 ++ [.getNode lab state.sourceNodeId.valueInt64])
    | .ok _ =>
      let tr2 := tr1 ++ [Call.getNode lab state.sourceNodeId.valueInt64]
      if state.sourcePort.valueString == "" then
        ((model, none, false), tr2)
      else
        match c.getNodeInterface lab state.sourceNodeId.valueInt64
            state.sourcePort.valueString with
        | .error m =>
            (({ model with sourcePort := .value "" }, some (.api m), false),
             tr2 ++ [.getNodeInterface lab state.sourceNodeId.valueInt64
                       state.sourcePort.valueString])
        | .ok (_, sourceInt) =>
          let tr3 := tr2 ++ [Call.getNodeInterface lab
            state.sourceNodeId.valueInt64 state.sourcePort.valueString]
          if sourceInt.networkId != state.networkId.valueInt64 then
            (({ model with sourcePort := .value "" }, none, false), tr3)
          else
            ((model, none, false), tr3)

/-- `NewNodeLinkModelNode` — the read path for the node-to-node shape.
Note: on a *target* interface lookup failure the Go code clears
`model.SourcePort` (not `model.TargetPort`). -/
def NewNodeLinkModelNode (c : Client) (state : NodeLinkResourceModel) :
    (NodeLinkResourceModel × Option GoErr × Bool) × List Call :=
  let lab := state.labPath.valueString
  let model := state
  match c.getNetwork lab state.networkId.valueInt64 with
  | .error m =>
      ((model, some (.api m), true), [.getNetwork lab state.networkId.valueInt64])
  | .ok _ =>
    let tr1 := [Call.getNetwork lab state.networkId.valueInt64]
    match c.getNode lab state.sourceNodeId.valueInt64 with
    | .error m =>
        (({ model with sourceNodeId := .value 0, sourcePort := .value "" },
          some (.api m), false),
         tr1 ++ [.getNode lab state.sourceNodeId.valueInt64])
    | .ok _ =>
      let tr2 := tr1 ++ [Call.getNode lab state.sourceNodeId.valueInt64]
      match c.getNode lab state.targetNodeId.valueInt64 with
      | .error m =>
          (({ model with targetNodeId := .value 0, targetPort := .value "" },
            some (.api m), false),
           tr2 ++ [.getNode lab state.targetNodeId.valueInt64])
      | .ok _ =>
        let tr3 := tr2 ++ [Call.getNode lab state.targetNodeId.valueInt64]
        match c.getNodeInterface lab state.sourceNodeId.valueInt64
            state.sourcePort.valueString with
        | .error m =>
            (({ model with sourcePort := .value "" }, some (.api m), false),
             tr3 ++ [.getNodeInterface lab state.sourceNodeId.valueInt64
                       state.sourcePort.valueString])
        | .ok (_, sourceInt) =>
          let tr4 := tr3 ++ [Call.getNodeInterface lab
            state.sourceNodeId.valueInt64 state.sourcePort.valueString]
          if sourceInt.networkId != state.networkId.valueInt64 then
            (({ model with sourcePort := .value "" },
              some (.sourcePortNotConnected state.sourcePort.valueString
                      state.networkId.valueInt64), false), tr4)
          else
            match c.getNodeInterface lab state.targetNodeId.valueInt64
                state.targetPort.valueString with
            | .error m =>
                (({ model with sourcePort := .value "" }, some (.api m), false),
                 tr4 ++ [.getNodeInterface lab state.targetNodeId.valueInt64
                           state.targetPort.valueString])
            | .ok (_, targetInt) =>
              let tr5 := tr4 ++ [Call.getNodeInterface lab
                state.targetNodeId.valueInt64 state.targetPort.valueString]
              if targetInt.networkId != state.networkId.valueInt64 then
                (({ model with targetPort := .value "" },
                  some (.targetPortNotConnected state.targetPort.valueString
                          state.networkId.valueInt64), false), tr5)
              else
                ((model, none, false), tr5)

/-- `ValueInt32()`. -/
def TfInt32.valueInt32 : TfInt32 → Int
  | .value v => v
  | _ => 0

/-- `ValueFloat32()`. -/
def TfFloat32.valueFloat32 : TfFloat32 → Rat
  | .value v => v
  | _ => 0

/-- Accumulate the value of a digit string; `none` if a non-digit occurs. -/
def digitsValAux : List Char → Nat → Option Nat
  | [], acc => some acc
  | ch :: rest, acc =>
      if ch.isDigit then digitsValAux rest (acc * 10 + (ch.toNat - 48))
      else none

/-- Value of a nonempty all-digit character list, else `none`. -/
def decDigitsVal : List Char → Option Nat
  | [] => none
  | l => digitsValAux l 0

/-- Model of `v, _ := strconv.Atoi(s)`: the integer value of an optionally
signed decimal string, and `0` when parsing fails (the error is discarded in
the source).  64-bit range clamping is not modelled. -/
def goAtoi (s : String) : Int :=
  match s.data with
  | [] => 0
  | ch :: rest =>
      if ch == '+' then
        match decDigitsVal rest with
        | some n => (n : Int)
        | none => 0
      else if ch == '-' then
        match decDigitsVal rest with
        | some n => -(n : Int)
        | none => 0
      else
        match decDigitsVal (ch :: rest) with
        | some n => (n : Int)
        | none => 0

/-- Parse an unsigned plain decimal (`digits`, `digits.digits`, `.digits`,
`digits.`) as an exact rational; `none` on any other shape. -/
def parseDecCore (l : List Char) : Option Rat :=
  let intPart := l.takeWhile (fun ch => ch != '.')
  let rest := l.dropWhile (fun ch => ch != '.')
  match rest with
  | [] => (decDigitsVal intPart).map (fun n => (n : Rat))
  | _ :: frac =>
      if frac.any (fun ch => ch == '.') then none
      else
        match digitsValAux intPart 0, digitsValAux frac 0 with
        | some i, some f =>
            if intPart.isEmpty && frac.isEmpty then none
            else some ((i : Rat) + (f : Rat) / ((10 : Rat) ^ frac.length))
        | _, _ => none

/-- Model of `v, _ := strconv.ParseFloat(s, 32)`: `0` when parsing fails.
Restricted to the plain signed decimal grammar (exponent and hexadecimal
forms, and binary float rounding, are not modelled; topology attributes use
plain decimals). -/
def goParseFloat (s : String) : Rat :=
  match s.data with
  | [] => 0
  | ch :: rest =>
      let signAndBody : Int × List Char :=
        if ch == '+' then (1, rest)
        else if ch == '-' then (-1, rest)
        else (1, ch :: rest)
      match parseDecCore signAndBody.2 with
      | some r => (signAndBody.1 : Rat) * r
      | none => 0

/-- Whether a topology entry's `source` equals `fmt.Sprintf("node%d",
plan.TargetNodeId.ValueInt64())` and its `source_label` equals the plan's
target port (entries whose `source` or `source_label` is missing or not a
string are skipped by `continue`). -/
def topoEntryMatches (plan : NodeLinkResourceModel) (e : TopoEntry) : Bool :=
  match e.source, e.sourceLabel with
  | some s, some lbl =>
      s == "node" ++ toString plan.targetNodeId.valueInt64 &&
      lbl == plan.targetPort.valueString
  | _, _ => false

/-- String attribute with default: missing key, non-string value, or empty
string falls back to the default (`style, ok := ...; if style == "" || !ok`). -/
def goStringOr (v : Option String) (dflt : String) : String :=
  match v with
  | some s => if s == "" then dflt else s
  | none => dflt

/-- The `StyleResourceModel` built from a matching topology entry: `style`,
`color`, `linkstyle` default on missing/empty, `label` defaults to `""` only
when missing, and every numeric field is whatever `Atoi`/`ParseFloat` yields
with the error discarded (`0` on failure). -/
def styleFromEntry (e : TopoEntry) : StyleResourceModel :=
  { style := .value (goStringOr e.style "Solid"),
    color := .value (goStringOr e.color "#3e7089"),
    srcPos := .value (goParseFloat e.srcpos),
    dstPos := .value (goParseFloat e.dstpos),
    linkStyle := .value (goStringOr e.linkstyle "Straight"),
    width := .value (goAtoi e.width),
    label := .value (e.label.getD ""),
    labelPos := .value (goParseFloat e.labelpos),
    stub := .value (goAtoi e.stub),
    curviness := .value (goAtoi e.curviness),
    bezierCurviness := .value (goAtoi e.beziercurviness),
    round := .value (goAtoi e.round),
    midpoint := .value (goParseFloat e.midpoint) }

/-- The loop body of `GetTopologyForTargetNode`: return the style of the
first matching entry, else the empty style. -/
def findTopologyStyle (plan : NodeLinkResourceModel) :
    List TopoEntry → StyleResourceModel
  | [] => emptyStyle
  | e :: rest =>
      if topoEntryMatches plan e then styleFromEntry e
      else findTopologyStyle plan rest

/-- `GetTopologyForTargetNode`: fetch the topology (on failure the error is
only logged and the nil listing yields the empty style) and scan it. -/
def GetTopologyForTargetNode (c : Client) (plan : NodeLinkResourceModel) :
    StyleResourceModel × List Call :=
  match c.getTopology plan.labPath.valueString with
  | .error _ => (emptyStyle, [.getTopology plan.labPath.valueString])
  | .ok topology =>
      (findTopologyStyle plan topology, [.getTopology plan.labPath.valueString])

/-- `NewStyleModel` simply delegates to `GetTopologyForTargetNode`. -/
def NewStyleModel (c : Client) (plan : NodeLinkResourceModel) :
    StyleResourceModel × List Call :=
  GetTopologyForTargetNode c plan

/-- `MakeNodeStyle`: when a style is declared, push it onto the target
endpoint's interface.  The call's response is only logged, so the oracle is
not consulted; the trace records the issued call. -/
def MakeNodeStyle (_c : Client) (plan : NodeLinkResourceModel) : List Call :=
  match plan.style with
  | none => []
  | some st =>
      let style : SdkStyle :=
        { style := st.style.valueString, color := st.color.valueString,
          srcpos := st.srcPos.valueFloat32, dstpos := st.dstPos.valueFloat32,
          linkstyle := st.linkStyle.valueString,
          width := st.width.valueInt32, label := st.label.valueString,
          labelpos := st.labelPos.valueFloat32, stub := st.stub.valueInt32,
          curviness := st.curviness.valueInt32,
          beziercurviness := st.bezierCurviness.valueInt32,
          round := st.round.valueInt32, midpoint := st.midpoint.valueFloat32 }
      [.updateInterfaceStyle plan.labPath.valueString
         plan.targetNodeId.valueInt64 plan.targetPort.valueString style]

/-- Outcome of `Create`/`Update`/`Delete`: the state written back (if any),
the first diagnostic `AddError(title, detail)` (if any), and the calls
issued. -/
structure OpResult where
  state : Option NodeLinkResourceModel
  err : Option (String × String)
  trace : List Call
  deriving DecidableEq, Repr

/-- `Create`: self-link fail-fast, then one of the two link-making paths over
the empty previous state, error propagation, the zero-id check, the
capability-gated style write/read-back, and finally the persisted state. -/
def Create (c : Client) (plan : NodeLinkResourceModel) : OpResult :=
  if plan.sourceNodeId.valueInt64 == plan.targetNodeId.valueInt64 then
    { state := none,
      err := some ("Cannot link a node to itself",
                   "source and target node IDs are the same"),
      trace := [] }
  else
    let ((id, mkErr), tr) :=
      if !plan.networkId.isUnknown then MakeNodeLinkNet c plan emptyModel
      else MakeNodeLinkNode c plan emptyModel
    match mkErr with
    | some e =>
        { state := none,
          err := some ("Failed to create node link (isNet=" ++
                       (if !plan.networkId.isNull then "true" else "false") ++
                       ")", e.message),
          trace := tr }
    | none =>
      if id == 0 then
        { state := none,
          err := some ("Failed to create node link", "network ID is 0"),
          trace := tr }
      else
        let styleAndCalls :=
          if c.isPro then
            let trStyle := MakeNodeStyle c plan
            let (rstyle, trGet) := NewStyleModel c plan
            (some rstyle, trStyle ++ trGet)
          else (plan.style, ([] : List Call))
        let newState : NodeLinkResourceModel :=
          { labPath := plan.labPath, networkId := .value id,
            sourceNodeId := plan.sourceNodeId, sourcePort := plan.sourcePort,
            targetNodeId := plan.targetNodeId, targetPort := plan.targetPort,
            style := styleAndCalls.1 }
        { state := some newState, err := none, trace := tr ++ styleAndCalls.2 }

/-- Outcome of `Read`: the resource is dropped for recreation, the read
fails, or the refreshed model is written back. -/
inductive ReadResult where
  | removed
  | failed (e : GoErr)
  | refreshed (m : NodeLinkResourceModel)
  deriving DecidableEq, Repr

/-- `Read`: dispatch on shape (`TargetNodeId` null means node-to-network),
drop the resource when `recreate` is set, surface errors, and refresh the
style when the pro capability is present and a style was persisted. -/
def Read (c : Client) (state : NodeLinkResourceModel) :
    ReadResult × List Call :=
  let ((model, err, recreate), tr) :=
    if state.targetNodeId.isNull then NewNodeLinkModelNet c state
    else NewNodeLinkModelNode c state
  if recreate then (.removed, tr)
  else
    match err with
    | some e => (.failed e, tr)
    | none =>
        if c.isPro && model.style.isSome then
          let (st, tr2) := NewStyleModel c model
          (.refreshed { model with style := some st }, tr ++ tr2)
        else (.refreshed model, tr)

/-- `Update`: self-link fail-fast; on a net-to-node shape change the
persisted network id is invalidated to unknown; then the same two link-making
paths as create (over the persisted state), style handling, and the plan with
the resulting network id is written back. -/
def Update (c : Client) (plan state : NodeLinkResourceModel) : OpResult :=
  if plan.sourceNodeId.valueInt64 == plan.targetNodeId.valueInt64 then
    { state := none,
      err := some ("Cannot link a node to itself",
                   "source and target node IDs are the same"),
      trace := [] }
  else
    let state :=
      if !plan.targetNodeId.isNull && !state.networkId.isNull &&
          state.targetNodeId.isNull then
        { state with networkId := .unknown }
      else state
    let ((id, mkErr), tr) :=
      if !plan.networkId.isUnknown then MakeNodeLinkNet c plan state
      else MakeNodeLinkNode c plan state
    match mkErr with
    | some e =>
        { state := none,
          err := some ("Failed to update node link", e.message), trace := tr }
    | none =>
      let styleAndCalls :=
        if c.isPro then
          let trStyle := MakeNodeStyle c plan
          let (rstyle, trGet) := NewStyleModel c plan
          (some rstyle, trStyle ++ trGet)
        else (plan.style, ([] : List Call))
      let newState : NodeLinkResourceModel :=
        { plan with networkId := .value id, style := styleAndCalls.1 }
      { state := some newState, err := none, trace := tr ++ styleAndCalls.2 }

/-- `Delete`: a no-op when the persisted network id is unknown; for the
node-to-node shape (target present) delete the implicit network; otherwise
conditionally unbind the source interface. -/
def Delete (c : Client) (state : NodeLinkResourceModel) :
    Option (String × String) × List Call :=
  if state.networkId.isUnknown then (none, [])
  else if !state.targetNodeId.isNull then
    match c.deleteNetwork state.labPath.valueString
        state.networkId.valueInt64 with
    | .error m =>
        (some ("Failed to delete node link", m),
         [.deleteNetwork state.labPath.valueString state.networkId.valueInt64])
    | .ok _ =>
        (none,
         [.deleteNetwork state.labPath.valueString state.networkId.valueInt64])
  else
    let (res, tr) := ensureInterfaceDeleted c state.labPath.valueString
      state.sourceNodeId.valueInt64 state.sourcePort.valueString
      state.networkId.valueInt64
    match res with
    | some e => (some ("Failed to delete node link", e.message), tr)
    | none => (none, tr)

/-- The network template `createOrUpdateNetwork` builds before deciding
between create and update: fixed default geometry, bridge type, visibility
`"1"`, icon `lan.png`. -/
def newNetTemplate (netId : Int) (nm : String) : Network :=
  { id := netId, left := 0, top := 0, name := nm, ntype := "bridge",
    visibility := "1", icon := "lan.png" }

/-- The deterministic synthetic name of an implicit network:
`sourceNodeId_sourcePortIndex_targetNodeId_targetPortIndex`. -/
def implicitNetName (s si t ti : Int) : String :=
  toString s ++ "_" ++ toString si ++ "_" ++ toString t ++ "_" ++ toString ti

/-! Concrete oracles, plans and states used by counterexamples and
witnesses. -/

/-- C1 oracle: interfaces `1/e0` (index 0) and `2/e1` (index 1) exist and are
unbound, no network exists yet, network creation assigns id `5`, every
mutation succeeds, community tier. -/
def clientC1 : Client :=
  { getNodeInterface := fun _ node port =>
      if node == 1 && port == "e0" then .ok (0, ⟨0⟩)
      else if node == 2 && port == "e1" then .ok (1, ⟨0⟩)
      else .error "no interface",
    getNode := fun _ _ => .ok (),
    getNetwork := fun _ _ => .error "not found",
    updateNodeInterfaceName := fun _ _ _ _ => .ok (),
    createNetwork := fun _ _ => .ok 5,
    updateNetwork := fun _ _ => .ok (),
    deleteNetwork := fun _ _ => .ok (),
    getTopology := fun _ => .ok [],
    updateNodeInterfaceStyle := fun _ _ _ _ => .ok (),
    isPro := false }

/-- C1 plan: node-to-node link `1/e0 — 2/e1` in lab `lab`. -/
def planC1 : NodeLinkResourceModel :=
  { labPath := .value "lab", networkId := .unknown,
    sourceNodeId := .value 1, sourcePort := .value "e0",
    targetNodeId := .value 2, targetPort := .value "e1", style := none }

/-- The network the C1 create pass passes to `CreateNetwork`. -/
def createdNetC1 : Network := newNetTemplate 0 (implicitNetName 1 0 2 1)

/-- The network the C1 create pass passes to the final `UpdateNetwork`. -/
def hiddenNetC1 : Network := { createdNetC1 with id := 5, visibility := "0" }

/-- A remote network record used when an oracle answers `GetNetwork`
successfully. -/
def someNet : Network :=
  { id := 7, left := 10, top := 20, name := "n", ntype := "bridge",
    visibility := "1", icon := "lan.png" }

/-- C2 oracle: network and nodes exist; interface `1/e0` is observed bound to
network `7`, interface `2/e1` to network `8`. -/
def clientC2 : Client :=
  { getNodeInterface := fun _ node port =>
      if node == 1 && port == "e0" then .ok (0, ⟨7⟩)
      else if node == 2 && port == "e1" then .ok (1, ⟨8⟩)
      else .error "no interface",
    getNode := fun _ _ => .ok (),
    getNetwork := fun _ _ => .ok someNet,
    updateNodeInterfaceName := fun _ _ _ _ => .ok (),
    createNetwork := fun _ _ => .ok 5,
    updateNetwork := fun _ _ => .ok (),
    deleteNetwork := fun _ _ => .ok (),
    getTopology := fun _ => .ok [],
    updateNodeInterfaceStyle := fun _ _ _ _ => .ok (),
    isPro := false }

/-- C2 node-to-network state: persisted network id `9`, but `1/e0` is
observed bound to `7`. -/
def stateC2net : NodeLinkResourceModel :=
  { labPath := .value "lab", networkId := .value 9,
    sourceNodeId := .value 1, sourcePort := .value "e0",
    targetNodeId := .null, targetPort := .null, style := none }

/-- C2 node-to-node state: persisted network id `7`; the source interface
matches but the target interface is observed bound to `8`. -/
def stateC2node : NodeLinkResourceModel :=
  { labPath := .value "lab", networkId := .value 7,
    sourceNodeId := .value 1, sourcePort := .value "e0",
    targetNodeId := .value 2, targetPort := .value "e1", style := none }

/-- C2 node-to-node state with a *source* mismatch: persisted network id `8`
while the source interface `1/e0` is observed bound to `7`. -/
def stateC2nodeSrc : NodeLinkResourceModel :=
  { labPath := .value "lab", networkId := .value 8,
    sourceNodeId := .value 1, sourcePort := .value "e0",
    targetNodeId := .value 2, targetPort := .value "e1", style := none }

/-- C3 oracle: interface `1/e0` is observed bound to network `5`. -/
def clientC3 : Client :=
  { getNodeInterface := fun _ node port =>
      if node == 1 && port == "e0" then .ok (0, ⟨5⟩)
      else .error "no interface",
    getNode := fun _ _ => .ok (),
    getNetwork := fun _ _ => .ok someNet,
    updateNodeInterfaceName := fun _ _ _ _ => .ok (),
    createNetwork := fun _ _ => .ok 5,
    updateNetwork := fun _ _ => .ok (),
    deleteNetwork := fun _ _ => .ok (),
    getTopology := fun _ => .ok [],
    updateNodeInterfaceStyle := fun _ _ _ _ => .ok (),
    isPro := false }

/-- C4 oracle: old source interface `1/e0` observed bound to `5`, new source
interface `1/e1` and target interface `2/e9` exist, network `5` exists, every
mutation succeeds. -/
def clientC4 : Client :=
  { getNodeInterface := fun _ node port =>
      if node == 1 && port == "e0" then .ok (0, ⟨5⟩)
      else if node == 1 && port == "e1" then .ok (1, ⟨0⟩)
      else if node == 2 && port == "e9" then .ok (2, ⟨5⟩)
      else .error "no interface",
    getNode := fun _ _ => .ok (),
    getNetwork := fun _ _ => .ok someNet,
    updateNodeInterfaceName := fun _ _ _ _ => .ok (),
    createNetwork := fun _ _ => .ok 6,
    updateNetwork := fun _ _ => .ok (),
    deleteNetwork := fun _ _ => .ok (),
    getTopology := fun _ => .ok [],
    updateNodeInterfaceStyle := fun _ _ _ _ => .ok (),
    isPro := false }

/-- C4 persisted state: node-to-node link `1/e0 — 2/e9` on network `5`. -/
def stateC4 : NodeLinkResourceModel :=
  { labPath := .value "lab", networkId := .value 5,
    sourceNodeId := .value 1, sourcePort := .value "e0",
    targetNodeId := .value 2, targetPort := .value "e9", style := none }

/-- C4 plan: identical to the state except the source port moves to `e1`. -/
def planC4 : NodeLinkResourceModel :=
  { labPath := .value "lab", networkId := .unknown,
    sourceNodeId := .value 1, sourcePort := .value "e1",
    targetNodeId := .value 2, targetPort := .value "e9", style := none }

/-- C5 plan: a self-link, node `3` to node `3`. -/
def planC5 : NodeLinkResourceModel :=
  { labPath := .value "lab", networkId := .unknown,
    sourceNodeId := .value 3, sourcePort := .value "e0",
    targetNodeId := .value 3, targetPort := .value "e1", style := none }

/-- C6 oracle: interface binding updates succeed. -/
def clientC6 : Client :=
  { getNodeInterface := fun _ _ _ => .error "no interface",
    getNode := fun _ _ => .ok (),
    getNetwork := fun _ _ => .ok someNet,
    updateNodeInterfaceName := fun _ _ _ _ => .ok (),
    createNetwork := fun _ _ => .ok 5,
    updateNetwork := fun _ _ => .ok (),
    deleteNetwork := fun _ _ => .ok (),
    getTopology := fun _ => .ok [],
    updateNodeInterfaceStyle := fun _ _ _ _ => .ok (),
    isPro := false }

/-- C6 plan: node-to-network link declaring network id `0`; the create pass
completes its path with a resulting id of `0`. -/
def planC6 : NodeLinkResourceModel :=
  { labPath := .value "lab", networkId := .value 0,
    sourceNodeId := .value 1, sourcePort := .value "e0",
    targetNodeId := .null, targetPort := .null, style := none }

/-- C7 oracle: network and both nodes exist, source interface `1/e0` matches
the persisted network `9`, but the target interface lookup fails. -/
def clientC7 : Client :=
  { getNodeInterface := fun _ node port =>
      if node == 1 && port == "e0" then .ok (0, ⟨9⟩)
      else .error "interface lookup failed",
    getNode := fun _ _ => .ok (),
    getNetwork := fun _ _ => .ok someNet,
    updateNodeInterfaceName := fun _ _ _ _ => .ok (),
    createNetwork := fun _ _ => .ok 5,
    updateNetwork := fun _ _ => .ok (),
    deleteNetwork := fun _ _ => .ok (),
    getTopology := fun _ => .ok [],
    updateNodeInterfaceStyle := fun _ _ _ _ => .ok (),
    isPro := false }

/-- C7 persisted state: node-to-node link `1/e0 — 2/e1` on network `9`. -/
def stateC7 : NodeLinkResourceModel :=
  { labPath := .value "lab", networkId := .value 9,
    sourceNodeId := .value 1, sourcePort := .value "e0",
    targetNodeId := .value 2, targetPort := .value "e1", style := none }

/-- C8 oracle: network deletion succeeds. -/
def clientC8 : Client :=
  { getNodeInterface := fun _ _ _ => .error "no interface",
    getNode := fun _ _ => .ok (),
    getNetwork := fun _ _ => .ok someNet,
    updateNodeInterfaceName := fun _ _ _ _ => .ok (),
    createNetwork := fun _ _ => .ok 5,
    updateNetwork := fun _ _ => .ok (),
    deleteNetwork := fun _ _ => .ok (),
    getTopology := fun _ => .ok [],
    updateNodeInterfaceStyle := fun _ _ _ _ => .ok (),
    isPro := false }

/-- C8 state: node-to-node link persisted on network `4`. -/
def stateC8 : NodeLinkResourceModel :=
  { labPath := .value "lab", networkId := .value 4,
    sourceNodeId := .value 1, sourcePort := .value "e0",
    targetNodeId := .value 2, targetPort := .value "e1", style := none }

/-- C9 topology entry matching target `node2`/`e1` whose optional string
attributes are all absent and whose numeric attributes are all the
unparsable string `"x"`. -/
def entryC9 : TopoEntry :=
  { source := some "node2", sourceLabel := some "e1",
    style := none, color := none, linkstyle := none, label := none,
    srcpos := "x", dstpos := "x", width := "x", labelpos := "x",
    stub := "x", curviness := "x", beziercurviness := "x", round := "x",
    midpoint := "x" }

/-- C9 oracle: the topology listing contains exactly `entryC9`. -/
def clientC9 : Client :=
  { getNodeInterface := fun _ _ _ => .error "no interface",
    getNode := fun _ _ => .ok (),
    getNetwork := fun _ _ => .ok someNet,
    updateNodeInterfaceName := fun _ _ _ _ => .ok (),
    createNetwork := fun _ _ => .ok 5,
    updateNetwork := fun _ _ => .ok (),
    deleteNetwork := fun _ _ => .ok (),
    getTopology := fun _ => .ok [entryC9],
    updateNodeInterfaceStyle := fun _ _ _ _ => .ok (),
    isPro := true }

/-- C9 plan: the link's target endpoint is `node 2`, port `e1`. -/
def planC9 : NodeLinkResourceModel :=
  { labPath := .value "lab", networkId := .value 3,
    sourceNodeId := .value 1, sourcePort := .value "e0",
    targetNodeId := .value 2, targetPort := .value "e1", style := none }

/-- C10 oracle: the network and the source node exist. -/
def clientC10 : Client :=
  { getNodeInterface := fun _ _ _ => .error "no interface",
    getNode := fun _ _ => .ok (),
    getNetwork := fun _ _ => .ok someNet,
    updateNodeInterfaceName := fun _ _ _ _ => .ok (),
    createNetwork := fun _ _ => .ok 5,
    updateNetwork := fun _ _ => .ok (),
    deleteNetwork := fun _ _ => .ok (),
    getTopology := fun _ => .ok [],
    updateNodeInterfaceStyle := fun _ _ _ _ => .ok (),
    isPro := false }

/-- C10 state: node-to-network link whose persisted source port is the empty
string (previously cleared by drift detection). -/
def stateC10 : NodeLinkResourceModel :=
  { labPath := .value "lab", networkId := .value 7,
    sourceNodeId := .value 1, sourcePort := .value "",
    targetNodeId := .null, targetPort := .null, style := none }

/-! Helper lemmas (shared): the two read-path helpers issue only GET calls. -/

/-- The node-to-network read path never issues a mutating call. -/
theorem newNodeLinkModelNet_reads_only (c : Client)
    (state : NodeLinkResourceModel) :
    ∀ cl ∈ (NewNodeLinkModelNet c state).2, cl.isMutation = false := by
  intro cl hcl
  simp only [NewNodeLinkModelNet] at hcl
  repeat' split at hcl
  all_goals simp only [List.mem_append, List.mem_cons, List.mem_singleton,
    List.not_mem_nil, or_false, false_or] at hcl
  all_goals try casesm* _ ∨ _
  all_goals subst_vars
  all_goals rfl

/-- The node-to-node read path never issues a mutating call. -/
theorem newNodeLinkModelNode_reads_only (c : Client)
    (state : NodeLinkResourceModel) :
    ∀ cl ∈ (NewNodeLinkModelNode c state).2, cl.isMutation = false := by
  intro cl hcl
  simp only [NewNodeLinkModelNode] at hcl
  repeat' split at hcl
  all_goals simp only [List.mem_append, List.mem_cons, List.mem_singleton,
    List.not_mem_nil, or_false, false_or] at hcl
  all_goals try casesm* _ ∨ _
  all_goals subst_vars
  all_goals rfl

/-! Shared helper lemmas about the style-synchronizer call suffix appended by
`Create`/`Update` when the pro capability is present. -/

/-- The style write path issues no interface-binding call. -/
theorem makeNodeStyle_count_updateInterface (c : Client)
    (plan : NodeLinkResourceModel) (lab : String) (node : Int) (port : String)
    (net : Int) :
    (MakeNodeStyle c plan).count (Call.updateInterface lab node port net) =
      0 := by
  rcases hps : plan.style with _ | st <;> simp [MakeNodeStyle, hps]

/-- The style read-back path issues no interface-binding call. -/
theorem newStyleModel_count_updateInterface (c : Client)
    (plan : NodeLinkResourceModel) (lab : String) (node : Int) (port : String)
    (net : Int) :
    ((NewStyleModel c plan).2).count (Call.updateInterface lab node port net) =
      0 := by
  rcases ht : c.getTopology plan.labPath.valueString with m | topo <;>
    simp [NewStyleModel, GetTopologyForTargetNode, ht]

/-- The style write and read-back paths never create a network. -/
theorem styleCalls_no_createNetwork (c : Client)
    (plan : NodeLinkResourceModel) :
    ∀ cl ∈ (MakeNodeStyle c plan ++ (NewStyleModel c plan).2),
      cl.isCreateNetwork = false := by
  intro cl hcl
  rcases hps : plan.style with _ | st <;>
    rcases ht : c.getTopology plan.labPath.valueString with m | topo <;>
      simp [MakeNodeStyle, NewStyleModel, GetTopologyForTargetNode, hps, ht]
        at hcl
  · subst hcl; rfl
  · subst hcl; rfl
  · rcases hcl with rfl | rfl <;> rfl
  · rcases hcl with rfl | rfl <;> rfl

/-! Shared helper lemmas about the topology scan of the style read path. -/

/-- Scanning a listing with no matching entry yields the empty style. -/
theorem findTopologyStyle_no_match (plan : NodeLinkResourceModel)
    (topo : List TopoEntry) (h : ∀ e ∈ topo, topoEntryMatches plan e = false) :
    findTopologyStyle plan topo = emptyStyle := by
  induction topo with
  | nil => rfl
  | cons e rest ih =>
      simp [findTopologyStyle, h e (List.mem_cons_self e rest)]
      exact ih fun x hx => h x (List.mem_cons_of_mem e hx)

/-- The scan returns the style of the first matching entry. -/
theorem findTopologyStyle_first_match (plan : NodeLinkResourceModel)
    (pre rest : List TopoEntry) (e : TopoEntry)
    (hpre : ∀ x ∈ pre, topoEntryMatches plan x = false)
    (he : topoEntryMatches plan e = true) :
    findTopologyStyle plan (pre ++ e :: rest) = styleFromEntry e := by
  induction pre with
  | nil => simp [findTopologyStyle, he]
  | cons x xs ih =>
      simp [findTopologyStyle, hpre x (List.mem_cons_self x xs)]
      exact ih fun y hy => hpre y (List.mem_cons_of_mem x hy)

/-! The claims. -/

/-- C1, counterexample.  The claim says the implicit network is *created*
with hidden visibility.  In the code, hidden is visibility `"0"` — the value
the final forced update writes — but the `CreateNetwork` call carries
visibility `"1"` (the user-visible default, the same value
`network_resource` uses for user-declared networks): the network is created
visible and only hidden after both bindings.  The trace of a concrete create
pass exhibits this. -/
theorem C1_counterexample :
    (Create clientC1 planC1).trace =
      [.getNodeInterface "lab" 1 "e0", .getNodeInterface "lab" 2 "e1",
       .getNetwork "lab" 0, .createNetwork "lab" createdNetC1,
       .updateInterface "lab" 1 "e0" 5, .updateInterface "lab" 2 "e1" 5,
       .updateNetwork "lab" hiddenNetC1] ∧
    createdNetC1.visibility = "1" ∧ hiddenNetC1.visibility = "0" ∧
    createdNetC1.visibility ≠ hiddenNetC1.visibility := by
  decide

/-- C1 (amended): creating a node-to-node link first looks up both endpoint
interfaces to obtain their port indices, creates the implicit network with
the deterministic synthetic name
`sourceNodeId_sourcePortIndex_targetNodeId_targetPortIndex` and the default
*visible* visibility `"1"`, binds the source interface and then the target
interface to it, and only after both bindings forces the network's
visibility flag to hidden (`"0"`) with a final network update. -/
theorem C1_create_choreography (c : Client) (plan : NodeLinkResourceModel)
    (lab sp tp : String) (s t si ti nid : Int) (ifS ifT : NodeIface)
    (m : String)
    (hlab : plan.labPath = .value lab)
    (hnet : plan.networkId = .unknown)
    (hs : plan.sourceNodeId = .value s)
    (hsp : plan.sourcePort = .value sp)
    (ht : plan.targetNodeId = .value t)
    (htp : plan.targetPort = .value tp)
    (hst : s ≠ t)
    (hifS : c.getNodeInterface lab s sp = .ok (si, ifS))
    (hifT : c.getNodeInterface lab t tp = .ok (ti, ifT))
    (hprobe : c.getNetwork lab 0 = .error m)
    (hcreate : c.createNetwork lab
      (newNetTemplate 0 (implicitNetName s si t ti)) = .ok nid)
    (hnid : nid ≠ 0)
    (hbindS : c.updateNodeInterfaceName lab s sp nid = .ok ())
    (hbindT : c.updateNodeInterfaceName lab t tp nid = .ok ())
    (hhide : c.updateNetwork lab
      { newNetTemplate nid (implicitNetName s si t ti) with
          visibility := "0" } = .ok ())
    (hpro : c.isPro = false) :
    Create c plan =
      { state := some { labPath := .value lab, networkId := .value nid,
                        sourceNodeId := .value s, sourcePort := .value sp,
                        targetNodeId := .value t, targetPort := .value tp,
                        style := plan.style },
        err := none,
        trace := [.getNodeInterface lab s sp, .getNodeInterface lab t tp,
          .getNetwork lab 0,
          .createNetwork lab (newNetTemplate 0 (implicitNetName s si t ti)),
          .updateInterface lab s sp nid, .updateInterface lab t tp nid,
          .updateNetwork lab
            { newNetTemplate nid (implicitNetName s si t ti) with
                visibility := "0" }] } := by
  simp only [newNetTemplate, implicitNetName] at hcreate hhide
  simp [Create, MakeNodeLinkNode, createOrUpdateNetwork, newNetTemplate,
    implicitNetName, emptyModel, hlab, hnet, hs, hsp, ht, htp, hst, hifS,
    hifT, hprobe, hcreate, hnid, hbindS, hbindT, hhide, hpro,
    TfInt64.valueInt64, TfString.valueString, TfInt64.isUnknown,
    TfInt64.isNull]

/-- C1, witness: the choreography theorem evaluated on the concrete C1
oracle and plan. -/
theorem C1_witness :
    Create clientC1 planC1 =
      { state := some { labPath := .value "lab", networkId := .value 5,
                        sourceNodeId := .value 1, sourcePort := .value "e0",
                        targetNodeId := .value 2, targetPort := .value "e1",
                        style := none },
        err := none,
        trace := [.getNodeInterface "lab" 1 "e0",
          .getNodeInterface "lab" 2 "e1", .getNetwork "lab" 0,
          .createNetwork "lab" (newNetTemplate 0 (implicitNetName 1 0 2 1)),
          .updateInterface "lab" 1 "e0" 5, .updateInterface "lab" 2 "e1" 5,
          .updateNetwork "lab"
            { newNetTemplate 5 (implicitNetName 1 0 2 1) with
                visibility := "0" }] } :=
  C1_create_choreography clientC1 planC1 "lab" "e0" "e1" 1 2 0 1 5 ⟨0⟩ ⟨0⟩
    "not found" rfl rfl rfl rfl rfl rfl (by decide) rfl rfl rfl rfl
    (by decide) rfl rfl rfl rfl

/-- C2: on read, a binding mismatch on a node-to-network link clears the
source port locally with no error; on a node-to-node link a binding mismatch
on either end returns an explicit `... is not connected` error whose message
literally contains the offending port — a target-interface mismatch names
the target port and a source-interface mismatch names the source port; and
neither read path ever issues a remote mutation. -/
theorem C2_read_drift_asymmetry :
    (∀ (c : Client) (state : NodeLinkResourceModel) (net : Network)
        (i : Int) (inter : NodeIface),
      c.getNetwork state.labPath.valueString state.networkId.valueInt64 =
        .ok net →
      c.getNode state.labPath.valueString state.sourceNodeId.valueInt64 =
        .ok () →
      state.sourcePort.valueString ≠ "" →
      c.getNodeInterface state.labPath.valueString
        state.sourceNodeId.valueInt64 state.sourcePort.valueString =
          .ok (i, inter) →
      inter.networkId ≠ state.networkId.valueInt64 →
      (NewNodeLinkModelNet c state).1 =
        ({ state with sourcePort := .value "" }, none, false)) ∧
    (∀ (c : Client) (state : NodeLinkResourceModel) (net : Network)
        (i j : Int) (sInt tInt : NodeIface),
      c.getNetwork state.labPath.valueString state.networkId.valueInt64 =
        .ok net →
      c.getNode state.labPath.valueString state.sourceNodeId.valueInt64 =
        .ok () →
      c.getNode state.labPath.valueString state.targetNodeId.valueInt64 =
        .ok () →
      c.getNodeInterface state.labPath.valueString
        state.sourceNodeId.valueInt64 state.sourcePort.valueString =
          .ok (i, sInt) →
      sInt.networkId = state.networkId.valueInt64 →
      c.getNodeInterface state.labPath.valueString
        state.targetNodeId.valueInt64 state.targetPort.valueString =
          .ok (j, tInt) →
      tInt.networkId ≠ state.networkId.valueInt64 →
      (NewNodeLinkModelNode c state).1 =
        ({ state with targetPort := .value "" },
         some (.targetPortNotConnected state.targetPort.valueString
                 state.networkId.valueInt64), false) ∧
      (∃ pre post,
        (GoErr.targetPortNotConnected state.targetPort.valueString
           state.networkId.valueInt64).message =
          pre ++ state.targetPort.valueString ++ post)) ∧
    (∀ (c : Client) (state : NodeLinkResourceModel) (net : Network)
        (i : Int) (sInt : NodeIface),
      c.getNetwork state.labPath.valueString state.networkId.valueInt64 =
        .ok net →
      c.getNode state.labPath.valueString state.sourceNodeId.valueInt64 =
        .ok () →
      c.getNode state.labPath.valueString state.targetNodeId.valueInt64 =
        .ok () →
      c.getNodeInterface state.labPath.valueString
        state.sourceNodeId.valueInt64 state.sourcePort.valueString =
          .ok (i, sInt) →
      sInt.networkId ≠ state.networkId.valueInt64 →
      (NewNodeLinkModelNode c state).1 =
        ({ state with sourcePort := .value "" },
         some (.sourcePortNotConnected state.sourcePort.valueString
                 state.networkId.valueInt64), false) ∧
      (∃ pre post,
        (GoErr.sourcePortNotConnected state.sourcePort.valueString
           state.networkId.valueInt64).message =
          pre ++ state.sourcePort.valueString ++ post)) ∧
    (∀ (c : Client) (state : NodeLinkResourceModel),
      ∀ cl ∈ (NewNodeLinkModelNet c state).2, cl.isMutation = false) ∧
    (∀ (c : Client) (state : NodeLinkResourceModel),
      ∀ cl ∈ (NewNodeLinkModelNode c state).2, cl.isMutation = false) := by
  refine ⟨?_, ?_, ?_, newNodeLinkModelNet_reads_only,
    newNodeLinkModelNode_reads_only⟩
  · intro c state net i inter h1 h2 h3 h4 h5
    simp [NewNodeLinkModelNet, h1, h2, h3, h4, h5]
  · intro c state net i j sInt tInt h1 h2 h3 h4 h5 h6 h7
    refine ⟨by simp [NewNodeLinkModelNode, h1, h2, h3, h4, h5, h6, h7], ?_⟩
    refine ⟨"target port ",
      " is not connected to network " ++ toString state.networkId.valueInt64,
      ?_⟩
    simp [GoErr.message, String.append_assoc]
  · intro c state net i sInt h1 h2 h3 h4 h5
    refine ⟨by simp [NewNodeLinkModelNode, h1, h2, h3, h4, h5], ?_⟩
    refine ⟨"source port ",
      " is not connected to network " ++ toString state.networkId.valueInt64,
      ?_⟩
    simp [GoErr.message, String.append_assoc]

/-- C2, witness: the three drift scenarios — net-shape silent clear,
node-shape target mismatch, node-shape source mismatch — evaluated on the
concrete C2 oracle. -/
theorem C2_witness :
    (NewNodeLinkModelNet clientC2 stateC2net).1 =
      ({ stateC2net with sourcePort := .value "" }, none, false) ∧
    (NewNodeLinkModelNode clientC2 stateC2node).1 =
      ({ stateC2node with targetPort := .value "" },
       some (.targetPortNotConnected "e1" 7), false) ∧
    (NewNodeLinkModelNode clientC2 stateC2nodeSrc).1 =
      ({ stateC2nodeSrc with sourcePort := .value "" },
       some (.sourcePortNotConnected "e0" 8), false) :=
  ⟨C2_read_drift_asymmetry.1 clientC2 stateC2net someNet 0 ⟨7⟩ rfl rfl
     (by decide) rfl (by decide),
   (C2_read_drift_asymmetry.2.1 clientC2 stateC2node someNet 0 1 ⟨7⟩ ⟨8⟩ rfl
     rfl rfl rfl rfl rfl (by decide)).1,
   (C2_read_drift_asymmetry.2.2.1 clientC2 stateC2nodeSrc someNet 0 ⟨7⟩ rfl
     rfl rfl rfl (by decide)).1⟩

/-- C3: `ensureInterfaceDeleted` unbinds (binds to network `0`) only when the
observed binding equals the expected previous network id; on a differing
observed binding it issues no unbind request; a failed interface fetch
propagates with no mutation issued. -/
theorem C3_conditional_unbind :
    ∀ (c : Client) (lab : String) (nodeId : Int) (port : String) (netId : Int),
    (∀ m, c.getNodeInterface lab nodeId port = .error m →
      ensureInterfaceDeleted c lab nodeId port netId =
        (some (.api m), [.getNodeInterface lab nodeId port])) ∧
    (∀ i inter, c.getNodeInterface lab nodeId port = .ok (i, inter) →
      inter.networkId ≠ netId →
      ensureInterfaceDeleted c lab nodeId port netId =
        (none, [.getNodeInterface lab nodeId port])) ∧
    (∀ i inter, c.getNodeInterface lab nodeId port = .ok (i, inter) →
      inter.networkId = netId →
      (ensureInterfaceDeleted c lab nodeId port netId).2 =
        [.getNodeInterface lab nodeId port,
         .updateInterface lab nodeId port 0]) := by
  intro c lab nodeId port netId
  refine ⟨?_, ?_, ?_⟩
  · intro m h
    simp [ensureInterfaceDeleted, h]
  · intro i inter h hne
    simp [ensureInterfaceDeleted, h, hne]
  · intro i inter h heq
    rcases hu : c.updateNodeInterfaceName lab nodeId port 0 with m | u <;>
      simp [ensureInterfaceDeleted, h, heq, hu]

/-- C3, witness: an interface observed bound to `5` is not unbound when the
expected previous network is `7`. -/
theorem C3_witness :
    ensureInterfaceDeleted clientC3 "lab" 1 "e0" 7 =
      (none, [.getNodeInterface "lab" 1 "e0"]) :=
  (C3_conditional_unbind clientC3 "lab" 1 "e0" 7).2.1 0 ⟨5⟩ rfl (by decide)

/-- C4: updating a node-to-node link bound to implicit network `nid`,
changing only the source port, issues exactly one unbind of the old
`(node, port)` pair and exactly one bind of the new pair to the same `nid`;
no network is created and the persisted network id is still `nid`. -/
theorem C4_update_source_port_rebind (c : Client)
    (plan state : NodeLinkResourceModel) (lab pOld pNew q : String)
    (s t iOld iNew iT nid : Int) (ifOld ifNew ifT : NodeIface) (netN : Network)
    (hplab : plan.labPath = .value lab)
    (hpnet : plan.networkId = .unknown)
    (hps : plan.sourceNodeId = .value s)
    (hpsp : plan.sourcePort = .value pNew)
    (hpt : plan.targetNodeId = .value t)
    (hptp : plan.targetPort = .value q)
    (hsnet : state.networkId = .value nid)
    (hss : state.sourceNodeId = .value s)
    (hssp : state.sourcePort = .value pOld)
    (hstt : state.targetNodeId = .value t)
    (hstp : state.targetPort = .value q)
    (hports : pOld ≠ pNew)
    (hnodes : s ≠ t)
    (hs0 : s ≠ 0)
    (hOld : c.getNodeInterface lab s pOld = .ok (iOld, ifOld))
    (hOldBound : ifOld.networkId = nid)
    (hUnbind : c.updateNodeInterfaceName lab s pOld 0 = .ok ())
    (hNew : c.getNodeInterface lab s pNew = .ok (iNew, ifNew))
    (hTgt : c.getNodeInterface lab t q = .ok (iT, ifT))
    (hNet : c.getNetwork lab nid = .ok netN)
    (hRename : c.updateNetwork lab
      (newNetTemplate nid (implicitNetName s iNew t iT)) = .ok ())
    (hBindNew : c.updateNodeInterfaceName lab s pNew nid = .ok ())
    (hBindTgt : c.updateNodeInterfaceName lab t q nid = .ok ())
    (hHide : c.updateNetwork lab
      { newNetTemplate nid (implicitNetName s iNew t iT) with
          visibility := "0" } = .ok ()) :
    (∃ stOut, (Update c plan state).state =
      some { plan with networkId := .value nid, style := stOut }) ∧
    (Update c plan state).err = none ∧
    (Update c plan state).trace.count (.updateInterface lab s pOld 0) = 1 ∧
    (Update c plan state).trace.count (.updateInterface lab s pNew nid) = 1 ∧
    (∀ cl ∈ (Update c plan state).trace, cl.isCreateNetwork = false) := by
  simp only [newNetTemplate, implicitNetName] at hRename hHide
  have hports2 : pNew ≠ pOld := Ne.symm hports
  have hnodes2 : t ≠ s := Ne.symm hnodes
  have hmain : MakeNodeLinkNode c plan state =
      ((nid, none),
       [.getNodeInterface lab s pOld, .updateInterface lab s pOld 0,
        .getNodeInterface lab s pNew, .getNodeInterface lab t q,
        .getNetwork lab nid,
        .updateNetwork lab (newNetTemplate nid (implicitNetName s iNew t iT)),
        .updateInterface lab s pNew nid, .updateInterface lab t q nid,
        .updateNetwork lab
          { newNetTemplate nid (implicitNetName s iNew t iT) with
              visibility := "0" }]) := by
    simp [MakeNodeLinkNode, ensureInterfaceDeleted, createOrUpdateNetwork,
      newNetTemplate, implicitNetName, hplab, hpnet, hps, hpsp, hpt, hptp,
      hsnet, hss, hssp, hstt, hstp, hports2, hs0, hOld, hOldBound, hUnbind,
      hNew, hTgt, hNet, hRename, hBindNew, hBindTgt, hHide,
      TfInt64.valueInt64, TfString.valueString]
  have hupd : Update c plan state =
      { state := some { plan with
                        networkId := .value nid,
                        style := (if c.isPro then
                            (some (NewStyleModel c plan).1,
                             MakeNodeStyle c plan ++ (NewStyleModel c plan).2)
                          else (plan.style, ([] : List Call))).1 },
        err := none,
        trace := [.getNodeInterface lab s pOld, .updateInterface lab s pOld 0,
          .getNodeInterface lab s pNew, .getNodeInterface lab t q,
          .getNetwork lab nid,
          .updateNetwork lab (newNetTemplate nid (implicitNetName s iNew t iT)),
          .updateInterface lab s pNew nid, .updateInterface lab t q nid,
          .updateNetwork lab
            { newNetTemplate nid (implicitNetName s iNew t iT) with
                visibility := "0" }] ++
          (if c.isPro then
              (some (NewStyleModel c plan).1,
               MakeNodeStyle c plan ++ (NewStyleModel c plan).2)
            else (plan.style, ([] : List Call))).2 } := by
    cases hpro : c.isPro <;>
      simp [Update, hplab, hpnet, hps, hpt, hstt, hsnet, hnodes, hmain, hpro,
        TfInt64.valueInt64, TfInt64.isUnknown, TfInt64.isNull]
  rw [hupd]
  refine ⟨⟨_, rfl⟩, rfl, ?_, ?_, ?_⟩
  · cases hpro : c.isPro
    · simp [hpro, List.count_cons, hports2, hnodes2]
    · simp [hpro, List.count_append, List.count_cons, hports2, hnodes2,
        makeNodeStyle_count_updateInterface,
        newStyleModel_count_updateInterface]
  · cases hpro : c.isPro
    · simp [hpro, List.count_cons, hports, hnodes2]
    · simp [hpro, List.count_append, List.count_cons, hports, hnodes2,
        makeNodeStyle_count_updateInterface,
        newStyleModel_count_updateInterface]
  · intro cl hcl
    simp only [List.mem_append] at hcl
    rcases hcl with hcl | hcl
    · simp only [List.mem_cons, List.not_mem_nil, or_false] at hcl
      casesm* _ ∨ _
      all_goals subst_vars
      all_goals rfl
    · cases hpro : c.isPro
      · rw [hpro] at hcl; simp at hcl
      · rw [hpro] at hcl; simp only [if_pos rfl] at hcl
        exact styleCalls_no_createNetwork c plan cl hcl

/-- C4, witness: moving the source port of link `1/e0 — 2/e9` (network `5`)
to `e1` on the concrete C4 oracle. -/
theorem C4_witness :
    (∃ stOut, (Update clientC4 planC4 stateC4).state =
      some { planC4 with networkId := .value 5, style := stOut }) ∧
    (Update clientC4 planC4 stateC4).err = none ∧
    (Update clientC4 planC4 stateC4).trace.count
      (.updateInterface "lab" 1 "e0" 0) = 1 ∧
    (Update clientC4 planC4 stateC4).trace.count
      (.updateInterface "lab" 1 "e1" 5) = 1 ∧
    (∀ cl ∈ (Update clientC4 planC4 stateC4).trace,
      cl.isCreateNetwork = false) :=
  C4_update_source_port_rebind clientC4 planC4 stateC4 "lab" "e0" "e1" "e9"
    1 2 0 1 2 5 ⟨5⟩ ⟨0⟩ ⟨5⟩ someNet rfl rfl rfl rfl rfl rfl rfl rfl rfl rfl
    rfl (by decide) (by decide) (by decide) rfl rfl rfl rfl rfl rfl rfl rfl
    rfl rfl

/-- C5: a declaration whose source node id equals its target node id is
rejected by both `Create` and `Update` with the self-link diagnostic, with an
empty call trace (no binder or network operation, remote state untouched). -/
theorem C5_self_link_fail_fast (c : Client) (plan state : NodeLinkResourceModel)
    (h : plan.sourceNodeId.valueInt64 = plan.targetNodeId.valueInt64) :
    Create c plan =
      { state := none,
        err := some ("Cannot link a node to itself",
                     "source and target node IDs are the same"),
        trace := [] } ∧
    Update c plan state =
      { state := none,
        err := some ("Cannot link a node to itself",
                     "source and target node IDs are the same"),
        trace := [] } := by
  constructor <;> simp [Create, Update, h]

/-- C5, witness: the self-link plan `3 — 3` rejected on create. -/
theorem C5_witness :
    Create clientC1 planC5 =
      { state := none,
        err := some ("Cannot link a node to itself",
                     "source and target node IDs are the same"),
        trace := [] } :=
  (C5_self_link_fail_fast clientC1 planC5 emptyModel (by decide)).1

/-- C6: every link state persisted by `Create` carries a non-zero network id,
and a create pass whose link-making path completes with id `0` surfaces the
`network ID is 0` diagnostic and persists nothing. -/
theorem C6_nonzero_persisted_network_id (c : Client)
    (plan : NodeLinkResourceModel) :
    (∀ m, (Create c plan).state = some m →
      ∃ n, m.networkId = TfInt64.value n ∧ n ≠ 0) ∧
    (∀ tr, plan.sourceNodeId.valueInt64 ≠ plan.targetNodeId.valueInt64 →
      (if !plan.networkId.isUnknown then MakeNodeLinkNet c plan emptyModel
       else MakeNodeLinkNode c plan emptyModel) = ((0, none), tr) →
      Create c plan =
        { state := none,
          err := some ("Failed to create node link", "network ID is 0"),
          trace := tr }) := by
  constructor
  · intro m hm
    by_cases hself : plan.sourceNodeId.valueInt64 = plan.targetNodeId.valueInt64
    · simp [Create, hself] at hm
    · cases hunk : plan.networkId.isUnknown with
      | false =>
          rcases hmk : MakeNodeLinkNet c plan emptyModel with ⟨⟨id, mkErr⟩, tr⟩
          cases mkErr with
          | some e => simp [Create, hself, hunk, hmk] at hm
          | none =>
              by_cases hid : id = 0
              · simp [Create, hself, hunk, hmk, hid] at hm
              · simp [Create, hself, hunk, hmk, hid] at hm
                exact ⟨id, by simp [← hm], hid⟩
      | true =>
          rcases hmk : MakeNodeLinkNode c plan emptyModel with ⟨⟨id, mkErr⟩, tr⟩
          cases mkErr with
          | some e => simp [Create, hself, hunk, hmk] at hm
          | none =>
              by_cases hid : id = 0
              · simp [Create, hself, hunk, hmk, hid] at hm
              · simp [Create, hself, hunk, hmk, hid] at hm
                exact ⟨id, by simp [← hm], hid⟩
  · intro tr hself hmk
    cases hunk : plan.networkId.isUnknown with
    | false =>
        have hmk2 : MakeNodeLinkNet c plan emptyModel = ((0, none), tr) := by
          simpa [hunk] using hmk
        simp [Create, hself, hunk, hmk2]
    | true =>
        have hmk2 : MakeNodeLinkNode c plan emptyModel = ((0, none), tr) := by
          simpa [hunk] using hmk
        simp [Create, hself, hunk, hmk2]

/-- C6, witness: a create pass completing the node-to-network path with the
declared network id `0` is rejected with `network ID is 0`. -/
theorem C6_witness :
    Create clientC6 planC6 =
      { state := none,
        err := some ("Failed to create node link", "network ID is 0"),
        trace := [.updateInterface "lab" 1 "e0" 0] } :=
  (C6_nonzero_persisted_network_id clientC6 planC6).2
    [.updateInterface "lab" 1 "e0" 0] (by decide) (by decide)

/-- C7: the claim says the per-endpoint read checks of the node-to-node
shape are symmetric, a failed interface lookup clearing *that same
endpoint's* port field.  Evaluating `NewNodeLinkModelNode` at a state whose
target interface lookup fails shows the code instead clears the *source*
port field and leaves the target port untouched (the adjacent
target-mismatch branch clears the target port, so this line is a
copy-paste slip contradicting the documented symmetric design). -/
theorem C7_target_lookup_clears_source_port :
    (NewNodeLinkModelNode clientC7 stateC7).1 =
      ({ stateC7 with sourcePort := .value "" },
       some (.api "interface lookup failed"), false) ∧
    ({ stateC7 with sourcePort := .value "" }).targetPort = .value "e1" ∧
    ({ stateC7 with sourcePort := .value "" }).sourcePort ≠
      stateC7.sourcePort := by
  decide

/-- C8: delete is a no-op when the persisted network id is unknown; for the
node-to-node shape it issues exactly the one `DeleteNetwork` call; for the
node-to-network shape it never issues a network delete and unbinds the
source interface only when its observed binding equals the persisted
network id. -/
theorem C8_delete_shape_discipline (c : Client) (state : NodeLinkResourceModel) :
    (state.networkId.isUnknown = true → Delete c state = (none, [])) ∧
    (state.networkId.isUnknown = false → state.targetNodeId.isNull = false →
      (Delete c state).2 =
        [.deleteNetwork state.labPath.valueString state.networkId.valueInt64]) ∧
    (state.networkId.isUnknown = false → state.targetNodeId.isNull = true →
      (∀ cl ∈ (Delete c state).2,
        cl = Call.getNodeInterface state.labPath.valueString
               state.sourceNodeId.valueInt64 state.sourcePort.valueString ∨
        cl = Call.updateInterface state.labPath.valueString
               state.sourceNodeId.valueInt64 state.sourcePort.valueString 0) ∧
      (Call.updateInterface state.labPath.valueString
          state.sourceNodeId.valueInt64 state.sourcePort.valueString 0 ∈
            (Delete c state).2 →
        ∃ i inter,
          c.getNodeInterface state.labPath.valueString
            state.sourceNodeId.valueInt64 state.sourcePort.valueString =
              .ok (i, inter) ∧
          inter.networkId = state.networkId.valueInt64)) := by
  refine ⟨?_, ?_, ?_⟩
  · intro h
    simp [Delete, h]
  · intro h1 h2
    rcases hd : c.deleteNetwork state.labPath.valueString
        state.networkId.valueInt64 with m | u <;>
      simp [Delete, h1, h2, hd]
  · intro h1 h2
    rcases hg : c.getNodeInterface state.labPath.valueString
        state.sourceNodeId.valueInt64 state.sourcePort.valueString with m | p
    · constructor
      · intro cl hcl
        simp [Delete, h1, h2, ensureInterfaceDeleted, hg] at hcl
        simp [hcl]
      · intro hmem
        simp [Delete, h1, h2, ensureInterfaceDeleted, hg] at hmem
    · obtain ⟨i, inter⟩ := p
      by_cases hb : inter.networkId = state.networkId.valueInt64
      · rcases hu : c.updateNodeInterfaceName state.labPath.valueString
            state.sourceNodeId.valueInt64 state.sourcePort.valueString 0 with
            m | u
        all_goals constructor
        all_goals
          first
          | (intro cl hcl
             simp [Delete, h1, h2, ensureInterfaceDeleted, hg, hb, hu] at hcl
             rcases hcl with rfl | rfl <;> simp)
          | (intro hmem
             exact ⟨i, inter, rfl, hb⟩)
      · constructor
        · intro cl hcl
          simp [Delete, h1, h2, ensureInterfaceDeleted, hg, hb] at hcl
          simp [hcl]
        · intro hmem
          simp [Delete, h1, h2, ensureInterfaceDeleted, hg, hb] at hmem

/-- C8, witness: deleting a node-to-node link issues exactly the one
network-delete call. -/
theorem C8_witness :
    (Delete clientC8 stateC8).2 = [.deleteNetwork "lab" 4] :=
  (C8_delete_shape_discipline clientC8 stateC8).2.1 rfl rfl

/-- C9, counterexample.  The claim says every field absent or unparsable on
the wire is replaced by its documented default (width 2, curviness 10,
beziercurviness 150, labelpos 0.5, midpoint 0.5, ...).  On a matching entry
whose optional string attributes are absent and whose numeric attributes are
the unparsable string `"x"`, the returned style carries the parse-failure
zero values for every numeric field, not those documented defaults. -/
theorem C9_counterexample :
    (GetTopologyForTargetNode clientC9 planC9).1 =
      { style := .value "Solid", color := .value "#3e7089",
        srcPos := .value 0, dstPos := .value 0,
        linkStyle := .value "Straight", width := .value 0,
        label := .value "", labelPos := .value 0, stub := .value 0,
        curviness := .value 0, bezierCurviness := .value 0,
        round := .value 0, midpoint := .value 0 } ∧
    TfInt32.value 0 ≠ TfInt32.value 2 ∧
    TfInt32.value 0 ≠ TfInt32.value 10 ∧
    TfInt32.value 0 ≠ TfInt32.value 150 ∧
    TfFloat32.value 0 ≠ TfFloat32.value (1 / 2) := by
  refine ⟨by decide, by decide, by decide, by decide, ?_⟩
  intro h
  have h2 : (0 : Rat) = 1 / 2 := by injection h
  norm_num at h2

/-- C9 (amended): the style read path scans the topology listing and
returns the style of the *first* entry whose source is `node<targetNodeId>`
and whose source label is the target port; string fields `style`, `color`,
`linkstyle` absent or empty default to `"Solid"`, `"#3e7089"`, `"Straight"`
and `label` to `""`, while numeric fields take whatever `Atoi`/`ParseFloat`
produce with the error discarded — `0` on an unparsable value, not the
schema defaults; with no matching entry, or a failed topology fetch, the
empty style is returned. -/
theorem C9_style_read_actual_defaults :
    (∀ (c : Client) (plan : NodeLinkResourceModel) (m : String),
      c.getTopology plan.labPath.valueString = .error m →
      (GetTopologyForTargetNode c plan).1 = emptyStyle) ∧
    (∀ (c : Client) (plan : NodeLinkResourceModel) (topo : List TopoEntry),
      c.getTopology plan.labPath.valueString = .ok topo →
      (∀ e ∈ topo, topoEntryMatches plan e = false) →
      (GetTopologyForTargetNode c plan).1 = emptyStyle) ∧
    (∀ (c : Client) (plan : NodeLinkResourceModel)
        (pre rest : List TopoEntry) (e : TopoEntry),
      c.getTopology plan.labPath.valueString = .ok (pre ++ e :: rest) →
      (∀ x ∈ pre, topoEntryMatches plan x = false) →
      topoEntryMatches plan e = true →
      (GetTopologyForTargetNode c plan).1 = styleFromEntry e) ∧
    styleFromEntry entryC9 =
      { style := .value "Solid", color := .value "#3e7089",
        srcPos := .value 0, dstPos := .value 0,
        linkStyle := .value "Straight", width := .value 0,
        label := .value "", labelPos := .value 0, stub := .value 0,
        curviness := .value 0, bezierCurviness := .value 0,
        round := .value 0, midpoint := .value 0 } := by
  refine ⟨?_, ?_, ?_, by decide⟩
  · intro c plan m h
    simp [GetTopologyForTargetNode, h]
  · intro c plan topo h hnone
    simp [GetTopologyForTargetNode, h,
      findTopologyStyle_no_match plan topo hnone]
  · intro c plan pre rest e h hpre he
    simp [GetTopologyForTargetNode, h,
      findTopologyStyle_first_match plan pre rest e hpre he]

/-- C9, witness: on the concrete C9 oracle the scan returns the style built
from the single matching entry. -/
theorem C9_witness :
    (GetTopologyForTargetNode clientC9 planC9).1 = styleFromEntry entryC9 :=
  C9_style_read_actual_defaults.2.2.1 clientC9 planC9 [] [] entryC9 rfl
    (by simp) (by decide)

/-- C10: reading a node-to-network link whose persisted source port is the
empty string returns success right after the network and source node
existence checks — the model is unchanged (the cleared port stays cleared),
no error is raised, and the trace holds exactly the two GET calls (no
interface query, no mutation). -/
theorem C10_empty_source_port_read (c : Client) (state : NodeLinkResourceModel)
    (net : Network)
    (hnet : c.getNetwork state.labPath.valueString state.networkId.valueInt64 =
      .ok net)
    (hnode : c.getNode state.labPath.valueString state.sourceNodeId.valueInt64 =
      .ok ())
    (hport : state.sourcePort.valueString = "") :
    NewNodeLinkModelNet c state =
      ((state, none, false),
       [.getNetwork state.labPath.valueString state.networkId.valueInt64,
        .getNode state.labPath.valueString state.sourceNodeId.valueInt64]) := by
  simp [NewNodeLinkModelNet, hnet, hnode, hport]

/-- C10, witness: the concrete C10 oracle and state. -/
theorem C10_witness :
    NewNodeLinkModelNet clientC10 stateC10 =
      ((stateC10, none, false),
       [.getNetwork "lab" 7, .getNode "lab" 1]) :=
  C10_empty_source_port_read clientC10 stateC10 someNet rfl rfl rfl

end Eveng
